import Mathlib

/-!
Verification of `photo_mapper.py` against its natural-language specification.

The Python source is shallowly embedded: dynamically-typed Python values are
an inductive type `PyVal`, Python floats are idealised as exact rationals
(`ℚ`), fallible code returns `Option`, and the external collaborators
(Pillow, pillow-heif, piexif) are modelled as explicit data passed to the
embedded functions.  Every definition mirrors the corresponding source
function line by line; deviations forced by the embedding are noted in
comments next to the definition.
-/

/-- A Python byte string, one `Nat` (0-255) per byte. -/
abbrev Bytes := List Nat

/-- A dynamically-typed Python value, covering the shapes that reach the
EXIF-processing functions of `photo_mapper.py`:
integers, floats (idealised as exact rationals), strings, byte strings,
tuples, and rational objects exposing `numerator`/`denominator`
attributes (PIL's `IFDRational`, `fractions.Fraction`). -/
inductive PyVal where
  | intV (n : Int)
  | floatV (q : ℚ)
  | strV (s : String)
  | bytesV (bs : Bytes)
  | tup (xs : List PyVal)
  | ratObj (num den : Int)

/-- Python truthiness (`bool(x)`): zero numbers, empty strings/bytes/tuples
are falsy.  Rational objects compare by value (`IFDRational.__bool__`). -/
def pyTruthy : PyVal → Bool
  | .intV n => decide (n ≠ 0)
  | .floatV q => decide (q ≠ 0)
  | .strV s => decide (s ≠ "")
  | .bytesV bs => decide (bs ≠ [])
  | .tup xs => !xs.isEmpty
  | .ratObj n _ => decide (n ≠ 0)

/-- The whitespace characters Python's `float()` strips from both ends of
its text argument (ASCII space, tab, LF, VT, FF, CR). -/
def isPyWs (c : Char) : Bool :=
  c = ' ' || c = '\t' || c = '\n' || c = '\r' || c.toNat = 11 || c.toNat = 12

/-- Underscore rule of Python numeric literals: every `_` must stand
between two digits; valid underscores are removed, anything else is a
parse failure.  The first argument is the previous character. -/
def deUnderscore : Option Char → List Char → Option (List Char)
  | _, [] => some []
  | prev, c :: rest =>
    if c = '_' then
      match prev, rest with
      | some p, n :: _ =>
        if p.isDigit && n.isDigit then deUnderscore (some c) rest else none
      | _, _ => none
    else (deUnderscore (some c) rest).map (c :: ·)

/-- Split the text at the first `e`/`E` (mantissa, optional exponent
text). -/
def splitExpChar : List Char → List Char × Option (List Char)
  | [] => ([], none)
  | c :: rest =>
    if c = 'e' || c = 'E' then ([], some rest)
    else
      let p := splitExpChar rest
      (c :: p.1, p.2)

/-- Split the text at the first `.` (integer part, optional fractional
text). -/
def splitDotChar : List Char → List Char × Option (List Char)
  | [] => ([], none)
  | c :: rest =>
    if c = '.' then ([], some rest)
    else
      let p := splitDotChar rest
      (c :: p.1, p.2)

/-- Numeric value of a digit string. -/
def digitsVal (cs : List Char) : Nat :=
  cs.foldl (fun a c => a * 10 + (c.toNat - 48)) 0

/-- An optional leading sign; returns (is-negative, rest). -/
def parseSign : List Char → Bool × List Char
  | '-' :: rest => (true, rest)
  | '+' :: rest => (false, rest)
  | cs => (false, cs)

/-- One or more digits and nothing else. -/
def allDigits1 (cs : List Char) : Bool :=
  !cs.isEmpty && cs.all Char.isDigit

/-- The mantissa of a Python float literal: `digits [. digits]`,
`digits .`, or `. digits` — at least one digit overall.  Returns the
digits read as one integer together with the length of the fractional
part. -/
def parseMantissa (cs : List Char) : Option (Nat × Nat) :=
  let p := splitDotChar cs
  match p.2 with
  | none => if allDigits1 p.1 then some (digitsVal p.1, 0) else none
  | some fp =>
    if p.1.all Char.isDigit && fp.all Char.isDigit &&
        !(p.1.isEmpty && fp.isEmpty) then
      some (digitsVal p.1 * 10 ^ fp.length + digitsVal fp, fp.length)
    else none

/-- The exponent of a Python float literal: optional sign, one or more
digits. -/
def parseExp (cs : List Char) : Option Int :=
  let s := parseSign cs
  if allDigits1 s.2 then
    some (if s.1 then -(digitsVal s.2 : Int) else (digitsVal s.2 : Int))
  else none

/-- The rational value `±num0 · 10^e`, built through `mkRat` so it
evaluates. -/
def decLitVal (neg : Bool) (num0 : Nat) (e : Int) : ℚ :=
  let n : Int := if neg then -(num0 : Int) else (num0 : Int)
  if 0 ≤ e then mkRat (n * 10 ^ e.toNat) 1 else mkRat n (10 ^ (-e).toNat)

/-- Python `float()` applied to text: strip whitespace, validate and drop
digit-group underscores, then parse `[sign] mantissa [e [sign] digits]`
and return its exact value; any other text raises `ValueError` (`none`).
The special texts `inf`/`infinity`/`nan` parse to IEEE specials, which lie
outside the exact-rational idealisation of floats and are modelled as
absent. -/
def pyFloatParse (s : String) : Option ℚ :=
  let cs := ((s.toList.dropWhile isPyWs).reverse.dropWhile isPyWs).reverse
  match deUnderscore none cs with
  | none => none
  | some cs2 =>
    let sg := parseSign cs2
    let pe := splitExpChar sg.2
    match parseMantissa pe.1 with
    | none => none
    | some m =>
      match pe.2 with
      | none => some (decLitVal sg.1 m.1 (-(m.2 : Int)))
      | some ecs =>
        match parseExp ecs with
        | none => none
        | some e => some (decLitVal sg.1 m.1 (e - (m.2 : Int)))

/-- Python `float(x)`: numbers convert; a rational object converts via its
`__float__` (value `num/den`; a zero denominator gives IEEE `nan`, which
has no rational counterpart and is modelled as unconvertible); strings
parse as float literals (`float("3.5") = 3.5`, `float("N")` raises);
bytes decode as ASCII and parse the same way (a byte ≥ 128 raises);
tuples raise `TypeError`. -/
def pyFloat : PyVal → Option ℚ
  | .intV n => some (n : ℚ)
  | .floatV q => some q
  | .ratObj n d => if d = 0 then none else some ((n : ℚ) / (d : ℚ))
  | .strV s => pyFloatParse s
  | .bytesV bs =>
    if bs.all (fun b => b < 128) then pyFloatParse (String.mk (bs.map Char.ofNat))
    else none
  | .tup _ => none

/-- Python `len(x)` where it succeeds (sequences); `none` models a raised
`TypeError`. -/
def pyLen : PyVal → Option Nat
  | .tup xs => some xs.length
  | .strV s => some s.length
  | .bytesV bs => some bs.length
  | _ => none

/-- Python `x[i]` on the sequence shapes (`none` models a raised error).
Indexing a `str` yields a 1-character `str`; indexing `bytes` yields an
`int` (Python 3). -/
def pyIndex : PyVal → Nat → Option PyVal
  | .tup xs, i => (xs.get? i).map id
  | .strV s, i => (s.toList.get? i).map (fun c => .strV (String.mk [c]))
  | .bytesV bs, i => (bs.get? i).map .intV
  | _, _ => none

/-- Python `x == 1` for the value shapes that can occur as `GPSAltitudeRef`:
`1` and `1.0` compare equal to `1`; strings, bytes and tuples never do. -/
def pyEqOne : PyVal → Bool
  | .intV n => decide (n = 1)
  | .floatV q => decide (q = 1)
  | _ => false

/-- `rational_to_float` (photo_mapper.py lines 37-46).  The `hasattr`
branch handles rational objects, the tuple branch handles `(num, den)`
pairs (`if den` is Python truthiness, so a zero denominator falls back to
`float(num)`), and everything else goes through `float(x)`; any exception
yields `None`.  A true division by floating zero (`den` truthy but
`float(den) == 0`) raises `ZeroDivisionError`, caught as `None`. -/
def rational_to_float : PyVal → Option ℚ
  | .ratObj n d => some (if d = 0 then (n : ℚ) else (n : ℚ) / (d : ℚ))
  | .tup xs =>
    match xs with
    | [num, den] =>
      if pyTruthy den then
        match pyFloat num, pyFloat den with
        | some nq, some dq => if dq = 0 then none else some (nq / dq)
        | _, _ => none
      else pyFloat num
    | _ => pyFloat (.tup xs)
  | v => pyFloat v

/-- The test `ref in ("S", "W")` (photo_mapper.py line 58): only the exact
strings `"S"` and `"W"` compare equal; `None`, bytes and any other value
do not. -/
def refNegates : Option PyVal → Bool
  | some (.strV s) => decide (s = "S") || decide (s = "W")
  | _ => false

/-- `dms_to_deg` (photo_mapper.py lines 48-62).  `not dms` rejects `None`
and falsy values, `len(dms) != 3` rejects wrong arity (a raising `len` is
caught by the enclosing `try`), each component goes through
`rational_to_float`, and the hemisphere reference negates for `"S"`/`"W"`.
Total by construction: the source's `try/except` guarantees it never
raises. -/
def dms_to_deg (dms : Option PyVal) (ref : Option PyVal) : Option ℚ :=
  match dms with
  | none => none
  | some v =>
    if pyTruthy v then
      match pyLen v with
      | some 3 =>
        match pyIndex v 0, pyIndex v 1, pyIndex v 2 with
        | some x0, some x1, some x2 =>
          match rational_to_float x0, rational_to_float x1, rational_to_float x2 with
          | some d, some m, some s =>
            some (if refNegates ref then -(d + m / 60 + s / 3600)
                  else d + m / 60 + s / 3600)
          | _, _, _ => none
        | _, _, _ => none
      | _ => none
    else none

/-- A Python dictionary key: EXIF dictionaries mix integer tag ids with the
string sentinel key used by `get_exif_any`. -/
inductive PyKey where
  | i (n : Int)
  | s (nm : String)
  deriving DecidableEq

/-- A value stored in an EXIF tag dictionary: either a nested dictionary
(the GPS IFD) or a plain value. -/
inductive ExifVal where
  | dictV (d : List (PyKey × PyVal))
  | plain (v : PyVal)

/-- The dictionary returned by `get_exif_any` / fed to
`extract_gps_from_pil_exif`.  Python dictionaries are modelled as
association lists; keys produced by PIL are unique, so first-match lookup
agrees with dictionary lookup. -/
abbrev ExifDict := List (PyKey × ExifVal)

/-- First-match association-list lookup, modelling `d.get(k)` / `d[k]` /
`k in d` on a Python dictionary. -/
def dLookup {α β : Type} [DecidableEq α] (k : α) : List (α × β) → Option β
  | [] => none
  | kv :: rest => if kv.1 = k then some kv.2 else dLookup k rest

/-- `GPSTAGS = {v: k for k, v in ExifTags.GPSTAGS.items()}` (photo_mapper.py
line 35): PIL's `ExifTags.GPSTAGS` maps tag id → tag name, so this reversed
table maps tag name → tag id.  All standard entries (ids 0-31) are
embedded. -/
def GPSTAGS : List (String × Int) :=
  [("GPSVersionID", 0), ("GPSLatitudeRef", 1), ("GPSLatitude", 2),
   ("GPSLongitudeRef", 3), ("GPSLongitude", 4), ("GPSAltitudeRef", 5),
   ("GPSAltitude", 6), ("GPSTimeStamp", 7), ("GPSSatellites", 8),
   ("GPSStatus", 9), ("GPSMeasureMode", 10), ("GPSDOP", 11),
   ("GPSSpeedRef", 12), ("GPSSpeed", 13), ("GPSTrackRef", 14),
   ("GPSTrack", 15), ("GPSImgDirectionRef", 16), ("GPSImgDirection", 17),
   ("GPSMapDatum", 18), ("GPSDestLatitudeRef", 19), ("GPSDestLatitude", 20),
   ("GPSDestLongitudeRef", 21), ("GPSDestLongitude", 22),
   ("GPSDestBearingRef", 23), ("GPSDestBearing", 24),
   ("GPSDestDistanceRef", 25), ("GPSDestDistance", 26),
   ("GPSProcessingMethod", 27), ("GPSAreaInformation", 28),
   ("GPSDateStamp", 29), ("GPSDifferential", 30),
   ("GPSHPositioningError", 31)]

/-- `TAGS.get("GPSInfo")` (photo_mapper.py line 67): PIL's `ExifTags.TAGS`
contains `34853: "GPSInfo"`, so the reversed `TAGS` table yields 34853. -/
def gpsInfoTag : Int := 34853

/-- One key of the comprehension `{GPSTAGS.get(k, k): v for k, v in
gps_ifd.items()}` (photo_mapper.py line 74): a key found in the (name → id)
`GPSTAGS` table is replaced by the id, any other key is kept unchanged.
Integer keys are never found in the string-keyed table, so they pass
through untouched. -/
def gpstagsRemapKey : PyKey → PyKey
  | .i n => .i n
  | .s nm =>
    match dLookup nm GPSTAGS with
    | some id => .i id
    | none => .s nm

/-- The dictionary comprehension of photo_mapper.py line 74.  (A Python
dict comprehension keeps the last value on key collision while this list
keeps every pair; harmless, since the string keys looked up afterwards
never occur at all — see `pil_remap_lookup_none`.) -/
def gpstagsRemap (d : List (PyKey × PyVal)) : List (PyKey × PyVal) :=
  d.map (fun kv => (gpstagsRemapKey kv.1, kv.2))

/-- `extract_gps_from_pil_exif` (photo_mapper.py lines 64-85): reject an
empty dictionary, locate the GPS IFD under tag 34853, require it to be
dictionary-shaped, remap its keys through `GPSTAGS`, then read latitude,
longitude and (optionally signed) altitude. -/
def extract_gps_from_pil_exif (exif : ExifDict) : Option (ℚ × ℚ × Option ℚ) :=
  match exif with
  | [] => none
  | _ :: _ =>
    match dLookup (PyKey.i gpsInfoTag) exif with
    | none => none
    | some (.plain _) => none
    | some (.dictV gps_ifd) =>
      let gps := gpstagsRemap gps_ifd
      let lat := dms_to_deg (dLookup (PyKey.s "GPSLatitude") gps)
                            (dLookup (PyKey.s "GPSLatitudeRef") gps)
      let lon := dms_to_deg (dLookup (PyKey.s "GPSLongitude") gps)
                            (dLookup (PyKey.s "GPSLongitudeRef") gps)
      let alt : Option ℚ :=
        match dLookup (PyKey.s "GPSAltitude") gps with
        | none => none
        | some av =>
          match rational_to_float av with
          | none => none
          | some a =>
            some (if pyEqOne ((dLookup (PyKey.s "GPSAltitudeRef") gps).getD (.intV 0))
                  then -a else a)
      match lat, lon with
      | some la, some lo => some (la, lo, alt)
      | _, _ => none

/-- `bytes.decode("ascii", "ignore")`: keep the bytes below 128, drop the
rest. -/
def decodeAsciiIgnore (bs : Bytes) : String :=
  String.mk ((bs.filter (fun b => b < 128)).map Char.ofNat)

/-- The expression `gps_ifd.get(KEY, b"").decode("ascii", "ignore") or None`
(photo_mapper.py lines 97 and 99).  The outer `Option` is the exception
boundary: `none` models a raised `AttributeError` (`.decode` on a non-bytes
value), which the enclosing `try` of `extract_gps_from_piexif_bytes` turns
into an overall `None`.  The inner `Option` is the argument actually
passed: an empty decode result is replaced by `None` via `or None`. -/
def piexifRefDecode (gps_ifd : List (Int × PyVal)) (key : Int) : Option (Option String) :=
  match dLookup key gps_ifd with
  | none => some none
  | some (.bytesV bs) =>
    let s := decodeAsciiIgnore bs
    if s = "" then some none else some (some s)
  | some _ => none

/-- The reference argument actually passed to `dms_to_deg` by the
raw-bytes extractor: the decoded reference letter as a Python string, or
`None`. -/
def piexifRefArg (gps_ifd : List (Int × PyVal)) (key : Int) : Option PyVal :=
  ((piexifRefDecode gps_ifd key).getD none).map PyVal.strV

/-- The piexif GPS tag ids used by the source (`piexif.GPSIFD.*`):
GPSLatitudeRef = 1, GPSLatitude = 2, GPSLongitudeRef = 3, GPSLongitude = 4,
GPSAltitudeRef = 5, GPSAltitude = 6. -/
def piexifLatRef : Int := 1

/-- piexif.GPSIFD.GPSLatitude. -/
def piexifLat : Int := 2

/-- piexif.GPSIFD.GPSLongitudeRef. -/
def piexifLonRef : Int := 3

/-- piexif.GPSIFD.GPSLongitude. -/
def piexifLon : Int := 4

/-- piexif.GPSIFD.GPSAltitudeRef. -/
def piexifAltRef : Int := 5

/-- piexif.GPSIFD.GPSAltitude. -/
def piexifAlt : Int := 6

/-- The body of `extract_gps_from_piexif_bytes` after `ex.get("GPS", {})`
(photo_mapper.py lines 92-108), as a function of the parsed GPS IFD:
reject an empty IFD, decode the two hemisphere reference letters (a raised
decode is caught by the enclosing `try` and yields `None` overall), convert
latitude and longitude through `dms_to_deg`, and read the optionally signed
altitude. -/
def extract_gps_from_piexif_gps_ifd (gps_ifd : List (Int × PyVal)) :
    Option (ℚ × ℚ × Option ℚ) :=
  match gps_ifd with
  | [] => none
  | _ :: _ =>
    match piexifRefDecode gps_ifd piexifLatRef, piexifRefDecode gps_ifd piexifLonRef with
    | some latRef, some lonRef =>
      let lat := dms_to_deg (dLookup piexifLat gps_ifd) (latRef.map PyVal.strV)
      let lon := dms_to_deg (dLookup piexifLon gps_ifd) (lonRef.map PyVal.strV)
      let alt : Option ℚ :=
        match dLookup piexifAlt gps_ifd with
        | none => none
        | some av =>
          match rational_to_float av with
          | none => none
          | some a =>
            some (if pyEqOne ((dLookup piexifAltRef gps_ifd).getD (.intV 0))
                  then -a else a)
      match lat, lon with
      | some la, some lo => some (la, lo, alt)
      | _, _ => none
    | _, _ => none

/-- Which optional libraries imported successfully at startup
(photo_mapper.py lines 14-29). -/
structure Env where
  have_pillow_heif : Bool
  have_piexif : Bool

/-- The external `piexif` collaborator: `load` turns an EXIF byte blob into
the parsed `"GPS"` IFD (`ex.get("GPS", {})` folded in: a missing IFD is the
empty list); `none` models a parse exception, which the source catches. -/
structure PiexifLib where
  load : Bytes → Option (List (Int × PyVal))

/-- `extract_gps_from_piexif_bytes` (photo_mapper.py lines 87-110): bail
out unless piexif is available and the blob is truthy, parse the blob
(exceptions yield `None`), then extract from the GPS IFD. -/
def extract_gps_from_piexif_bytes (env : Env) (lib : PiexifLib) (exif_bytes : Bytes) :
    Option (ℚ × ℚ × Option ℚ) :=
  if env.have_piexif ∧ exif_bytes ≠ [] then
    match lib.load exif_bytes with
    | none => none
    | some gps_ifd => extract_gps_from_piexif_gps_ifd gps_ifd
  else none

/-- Lower-case a string (`str.lower()`; the extensions involved are
ASCII). -/
def lowerStr (s : String) : String :=
  String.mk (s.toList.map Char.toLower)

/-- `pathlib` suffix of a file name (CPython: the part of the final
component from the last `"."`, provided that dot is neither the first nor
the last character). -/
def pathSuffix (name : String) : String :=
  let cs := name.toList
  match cs.reverse.findIdx? (fun c => c = '.') with
  | none => ""
  | some j =>
    let i := cs.length - 1 - j
    if 0 < i ∧ i < cs.length - 1 then String.mk (cs.drop i) else ""

/-- `path.suffix.lower() in (".heic", ".heif")` (photo_mapper.py
line 129). -/
def isHeifSuffix (fname : String) : Bool :=
  lowerStr (pathSuffix fname) = ".heic" || lowerStr (pathSuffix fname) = ".heif"

/-- A PIL image as the source uses it: the structured tag dictionary
returned by `im.getexif()` (its keys are integer tag ids) and the raw EXIF
blob exposed through `im.info.get("exif")` (absent key modelled as
`none`; the value may be an empty — falsy — byte string). -/
structure PILImage where
  getexif : List (Int × ExifVal)
  infoExif : Option Bytes

/-- One entry of `pillow_heif.open_heif(path).metadata`: a dictionary with
`"type"` and `"data"` entries. -/
structure HeifMd where
  mdType : String
  data : Bytes

/-- Everything the decoding collaborators can report about one file:
`img = none` models `Image.open` (or any code inside the `with` block
prologue) raising; `heif = none` models `pillow_heif.open_heif` raising
(caught by the inner `try` of `get_exif_any`).  `h.metadata or []` is
folded into the list. -/
structure FileModel where
  fname : String
  img : Option PILImage
  heif : Option (List HeifMd)

/-- Inject PIL's integer-keyed tag dictionary into the mixed-key
`ExifDict` shape (`dict(exif)` in the source). -/
def pilToExifDict (l : List (Int × ExifVal)) : ExifDict :=
  l.map (fun kv => (PyKey.i kv.1, kv.2))

/-- Truthiness of the `exif_bytes` variable: `None` and `b""` are falsy. -/
def obTruthy : Option Bytes → Bool
  | none => false
  | some b => !b.isEmpty

/-- Normalisation of the final `if exif_bytes:` test of `get_exif_any`:
the blob that is actually stashed (a falsy — absent or empty — value
stashes nothing). -/
def truthyBlob : Option Bytes → Option Bytes
  | none => none
  | some b => if b.isEmpty then none else some b

/-- The HEIC metadata-block scan of photo_mapper.py lines 131-135: the
first metadata block whose `"type"` is `"Exif"` and whose `"data"` is
truthy. -/
def heifFind (mds : List HeifMd) : Option Bytes :=
  (mds.find? (fun md => decide (md.mdType = "Exif") && !md.data.isEmpty)).map
    (fun md => md.data)

/-- The value of the `exif_bytes` local of `get_exif_any` after lines
124-137: start from `im.info.get("exif")`; if that is falsy and pillow-heif
is available and the suffix is HEIC/HEIF, scan the HEIF metadata blocks
(a raising scan is caught and leaves the value unchanged). -/
def codeExifBytes (env : Env) (fm : FileModel) (im : PILImage) : Option Bytes :=
  let eb := im.infoExif
  if !obTruthy eb && env.have_pillow_heif && isHeifSuffix fm.fname then
    match fm.heif with
    | none => eb
    | some mds =>
      match heifFind mds with
      | some d => some d
      | none => eb
  else eb

/-- `get_exif_any` (photo_mapper.py lines 112-144): if PIL's structured
dictionary already yields GPS, return it; otherwise look for raw EXIF
bytes and, when truthy bytes were found, return the sentinel dictionary
`{"__RAW_EXIF_BYTES__": bytes}`; else return the structured dictionary.
Any exception (modelled by `fm.img = none`) yields the empty
dictionary. -/
def get_exif_any (env : Env) (fm : FileModel) : ExifDict :=
  match fm.img with
  | none => []
  | some im =>
    let exif := pilToExifDict im.getexif
    if (extract_gps_from_pil_exif exif).isSome then exif
    else
      match codeExifBytes env fm im with
      | some b =>
        if b.isEmpty then exif
        else [(PyKey.s "__RAW_EXIF_BYTES__", ExifVal.plain (.bytesV b))]
      | none => exif

/-- The per-file dispatch of `main` (photo_mapper.py lines 200-208)
together with an instrumentation bit recording whether the raw-bytes
extractor `extract_gps_from_piexif_bytes` was invoked: when the sentinel
key is absent the structured extractor runs; when it is present the
raw-bytes extractor runs on the stashed blob.  (The sentinel value is
always a byte string by construction of `get_exif_any`; the final arm is
unreachable.) -/
def resolveFileT (env : Env) (lib : PiexifLib) (fm : FileModel) :
    Option (ℚ × ℚ × Option ℚ) × Bool :=
  let eor := get_exif_any env fm
  match dLookup (PyKey.s "__RAW_EXIF_BYTES__") eor with
  | none => (extract_gps_from_pil_exif eor, false)
  | some (.plain (.bytesV b)) => (extract_gps_from_piexif_bytes env lib b, true)
  | some _ => (none, true)

/-- Modelled from the spec (section 4.5, step 3, source (b)): the HEIC/HEIF
metadata-block blob, available when pillow-heif support is present and the
file has a HEIC/HEIF suffix. -/
def heifBlob (env : Env) (fm : FileModel) : Option Bytes :=
  if env.have_pillow_heif && isHeifSuffix fm.fname then fm.heif.bind heifFind
  else none

/-- Modelled from the spec (section 4.5, step 3): obtain a raw EXIF byte
blob from two sources in order — (a) the format-exposed metadata
side-channel on the opened image, (b) the HEIC/HEIF metadata-block
scan.  An empty byte string is no blob. -/
def obtainBlob (env : Env) (fm : FileModel) (im : PILImage) : Option Bytes :=
  match im.infoExif with
  | some b => if b.isEmpty then heifBlob env fm else some b
  | none => heifBlob env fm

/-- Modelled from the spec (section 4.5, Metadata Resolver decision
procedure): open the image (any exception means "no metadata available");
run the tag-dictionary extractor and accept its coordinate if any;
otherwise obtain a raw blob and return the raw-bytes extraction applied to
it; with no blob, return absent. -/
def resolverSpec (env : Env) (lib : PiexifLib) (fm : FileModel) :
    Option (ℚ × ℚ × Option ℚ) :=
  match fm.img with
  | none => none
  | some im =>
    match extract_gps_from_pil_exif (pilToExifDict im.getexif) with
    | some c => some c
    | none =>
      match obtainBlob env fm im with
      | some b => extract_gps_from_piexif_bytes env lib b
      | none => none

/-- The exact condition under which the code's raw-bytes path runs: the
image opened, the structured extraction yielded nothing, and a (truthy)
blob was obtained. -/
def rawInvoked (env : Env) (fm : FileModel) : Bool :=
  match fm.img with
  | none => false
  | some im =>
    (extract_gps_from_pil_exif (pilToExifDict im.getexif)).isNone
      && (obtainBlob env fm im).isSome

/-- The five sequential `str.replace` calls of `xml_escape` each have a
single-character pattern, so one pass is: every occurrence of `p` becomes
`r`, all other characters stay. -/
def pyCharReplace (p : Char) (r : List Char) : List Char → List Char
  | [] => []
  | c :: cs => (if c = p then r else [c]) ++ pyCharReplace p r cs

/-- The five replacements of `xml_escape` in source order on the character
list: `&` first, then `<`, `>`, `"`, `'`. -/
def escRun (l : List Char) : List Char :=
  pyCharReplace '\'' "&apos;".toList
    (pyCharReplace '"' "&quot;".toList
      (pyCharReplace '>' "&gt;".toList
        (pyCharReplace '<' "&lt;".toList
          (pyCharReplace '&' "&amp;".toList l))))

/-- `xml_escape` (photo_mapper.py lines 168-173): replace `&` first, then
`<`, `>`, `"`, `'`, each by its XML entity. -/
def xml_escape (s : String) : String :=
  String.mk (escRun s.toList)

/-- Per-character escaping: what `xml_escape` is proved to do to every
single character of its input (claim C6). -/
def escChar (c : Char) : List Char :=
  if c = '&' then "&amp;".toList
  else if c = '<' then "&lt;".toList
  else if c = '>' then "&gt;".toList
  else if c = '"' then "&quot;".toList
  else if c = '\'' then "&apos;".toList
  else [c]

/-- A Placemark Record (spec section 3): file name, coordinate, optional
altitude, relative-path description. -/
structure Placemark where
  name : String
  lat : ℚ
  lon : ℚ
  alt : Option ℚ
  desc : String
  deriving DecidableEq

/-- Least `k < 20` with `d ∣ 10^k`, used to render a rational as the exact
decimal numeral Python's `repr` prints for the corresponding float. -/
def decExp (d : Nat) : Option Nat :=
  (List.range 20).find? (fun k => 10 ^ k % d = 0)

/-- Digits of `m` with a decimal point `k` places from the right, in
Python float style (`k = 0` renders `m.0`). -/
def natDecStr (m k : Nat) : String :=
  if k = 0 then toString m ++ ".0"
  else
    let s := toString m
    let s := if s.length ≤ k then
               String.mk (List.replicate (k + 1 - s.length) '0') ++ s
             else s
    String.mk (s.toList.take (s.length - k)) ++ "." ++
      String.mk (s.toList.drop (s.length - k))

/-- Rendering of a float in an f-string (`repr`).  Floats are idealised as
exact rationals; for a rational with a power-of-ten denominator this is the
shortest decimal numeral, which is exactly what Python prints for the
corresponding float.  Other denominators (never produced by the claims'
inputs) fall back to a fraction rendering. -/
def fmtQ (q : ℚ) : String :=
  match decExp q.den with
  | some k =>
    (if q.num < 0 then "-" else "") ++ natDecStr (q.num.natAbs * 10 ^ k / q.den) k
  | none => toString q.num ++ "/" ++ toString q.den

/-- The `coords` string of `build_kml` (photo_mapper.py lines 154-156):
longitude first, then latitude, then the altitude only when present. -/
def coordsOf (pm : Placemark) : String :=
  let c := fmtQ pm.lon ++ "," ++ fmtQ pm.lat
  match pm.alt with
  | some a => c ++ "," ++ fmtQ a
  | none => c

/-- One `<Placemark>` block (photo_mapper.py lines 159-164); the
`<description>` element is omitted when the escaped description is
empty. -/
def placemarkXml (pm : Placemark) : String :=
  "    <Placemark>\n      <name>" ++ xml_escape pm.name ++ "</name>\n      " ++
    (if xml_escape pm.desc ≠ "" then
       "<description>" ++ xml_escape pm.desc ++ "</description>"
     else "") ++
    "\n      <Point><coordinates>" ++ coordsOf pm ++
    "</coordinates></Point>\n    </Placemark>\n"

/-- The KML header (photo_mapper.py lines 147-151). -/
def kmlHeader (doc_name : String) : String :=
  "<?xml version=\"1.0\" encoding=\"UTF-8\"?>\n<kml xmlns=\"http://www.opengis.net/kml/2.2\">\n  <Document>\n    <name>" ++
    xml_escape doc_name ++ "</name>\n"

/-- The KML footer (photo_mapper.py line 165). -/
def kmlFooter : String := "  </Document>\n</kml>\n"

/-- `build_kml` (photo_mapper.py lines 146-166). -/
def build_kml (placemarks : List Placemark) (doc_name : String) : String :=
  kmlHeader doc_name ++ String.join (placemarks.map placemarkXml) ++ kmlFooter

/-- `IMG_EXTS` (photo_mapper.py line 31). -/
def IMG_EXTS : List String :=
  [".jpg", ".jpeg", ".tif", ".tiff", ".heic", ".heif"]

/-- The filter `p.suffix.lower() not in IMG_EXTS` (photo_mapper.py
line 196), as the positive test. -/
def recognizedExt (fname : String) : Bool :=
  IMG_EXTS.contains (lowerStr (pathSuffix fname))

/-- What the body of `main`'s per-file `try` block produced for one file:
`ok g` when control flowed to line 210 with `gps = g` (the extraction
pipeline of lines 200-208 — see `fileOutcomeOf` — cannot itself raise,
because `get_exif_any` and both extractors catch their own exceptions), and
`exc msg` when an exception with message `msg` reached the handler of
line 223. -/
inductive ProcResult where
  | ok (gps : Option (ℚ × ℚ × Option ℚ))
  | exc (msg : String)

/-- One candidate file of the directory walk: base name, printable full
path, path relative to the scan root, and the outcome of its per-file
processing. -/
structure FileEntry where
  fname : String
  path : String
  rel : String
  res : ProcResult

/-- The outcome of lines 200-208 for a file whose decoding collaborators
behave as `fm` describes: the resolver dispatch, which never raises. -/
def fileOutcomeOf (env : Env) (lib : PiexifLib) (fm : FileModel) : ProcResult :=
  .ok (resolveFileT env lib fm).1

/-- The Scan Counters and accumulating placemark list of `main`
(photo_mapper.py lines 188-191), plus the warning lines printed to
stderr. -/
structure ScanState where
  placemarks : List Placemark
  total : Nat
  with_gps : Nat
  skipped : Nat
  errlines : List String
  deriving DecidableEq

/-- The scan's start state. -/
def initState : ScanState := ⟨[], 0, 0, 0, []⟩

/-- The warning `[WARN] {p}: {e}` of photo_mapper.py line 225. -/
def warnLine (path msg : String) : String :=
  "[WARN] " ++ path ++ ": " ++ msg

/-- Processing of one directory entry (photo_mapper.py lines 194-225):
skip unrecognized extensions; otherwise count it in `total` and then either
record a placemark (`with_gps`), count it skipped, or — on an exception —
count it skipped and emit one warning line. -/
def procFile (st : ScanState) (f : FileEntry) : ScanState :=
  if recognizedExt f.fname then
    let st1 := { st with total := st.total + 1 }
    match f.res with
    | .exc msg =>
      { st1 with skipped := st1.skipped + 1,
                 errlines := st1.errlines ++ [warnLine f.path msg] }
    | .ok none => { st1 with skipped := st1.skipped + 1 }
    | .ok (some (la, lo, al)) =>
      { st1 with placemarks := st1.placemarks ++ [⟨f.fname, la, lo, al, f.rel⟩],
                 with_gps := st1.with_gps + 1 }
  else st

/-- The whole walk (photo_mapper.py lines 193-225) over the files the
traversal yields, in traversal order. -/
def scan (files : List FileEntry) : ScanState :=
  files.foldl procFile initState

/-- The observable result of `main` after the scan: exit code, the file
written (path and content), stdout lines, stderr lines. -/
structure MainOut where
  exitCode : Nat
  written : Option (String × String)
  stdout : List String
  stderr : List String
  deriving DecidableEq

/-- The summary line of photo_mapper.py lines 229/240. -/
def summaryLine (st : ScanState) : String :=
  "Scanned " ++ toString st.total ++ " images; " ++ toString st.with_gps ++
    " with GPS; " ++ toString st.skipped ++ " skipped."

/-- The tail of `main` (photo_mapper.py lines 227-241): with no placemarks,
print the two summary lines to stderr and exit 4 without writing; otherwise
build the KML and write it (`writeErr` models `out_path.write_text`
raising), reporting success on stdout or the write failure on stderr. -/
def mainScanResult (files : List FileEntry) (folderName outPath : String)
    (writeErr : Option String) : MainOut :=
  let st := scan files
  if st.placemarks.isEmpty then
    { exitCode := 4, written := none, stdout := [],
      stderr := st.errlines ++
        ["No geotagged images found. No KML written.", summaryLine st] }
  else
    let kml := build_kml st.placemarks (folderName ++ " (Geotagged Images)")
    match writeErr with
    | some e =>
      { exitCode := 5, written := none, stdout := [],
        stderr := st.errlines ++ ["Failed to write KML: " ++ e] }
    | none =>
      { exitCode := 0, written := some (outPath, kml),
        stdout := ["Wrote KML: " ++ outPath, summaryLine st],
        stderr := st.errlines }

/-- Componentwise combination of scan states: counters add, lists
concatenate.  `scan` over an appended file list splits along it. -/
def addState (a b : ScanState) : ScanState :=
  ⟨a.placemarks ++ b.placemarks, a.total + b.total, a.with_gps + b.with_gps,
   a.skipped + b.skipped, a.errlines ++ b.errlines⟩

/-- A DMS triple of whole-number rationals, as EXIF stores them:
`((d,1),(m,1),(s,1))`. -/
def dmsTriple (d m s : Int) : PyVal :=
  .tup [.tup [.intV d, .intV 1], .tup [.intV m, .intV 1], .tup [.intV s, .intV 1]]

/-- The spec's example triple `[(10,1),(30,1),(0,1)]`. -/
def dmsEx : PyVal := dmsTriple 10 30 0

/-- Environment with both optional libraries available. -/
def envBoth : Env := ⟨true, true⟩

/-- A parsed GPS IFD holding latitude 10°30'0" N and longitude 20°0'0" E
(reference letters as raw bytes, as piexif returns them). -/
def demoIfd : List (Int × PyVal) :=
  [(1, .bytesV [78]), (2, dmsTriple 10 30 0),
   (3, .bytesV [69]), (4, dmsTriple 20 0 0)]

/-- A concrete piexif collaborator: blob `[1]` parses to `demoIfd`. -/
def demoLib : PiexifLib := ⟨fun bs => if bs = [1] then some demoIfd else none⟩

/-- A file whose structured tag dictionary is empty but whose raw EXIF
bytes (side-channel blob `[1]`) contain GPS data. -/
def demoFallbackFile : FileModel := ⟨"a.jpg", some ⟨[], some [1]⟩, none⟩

/-- A file with no structured GPS data and no raw blob at all. -/
def demoEmptyFile : FileModel := ⟨"b.jpg", some ⟨[], none⟩, none⟩

/-- A GPS IFD for the tag-dictionary path, keyed by integer tag ids as PIL
produces them: lat 10°30' N, lon 20° E, altitude 100 above sea level. -/
def c4GpsIfd : List (PyKey × PyVal) :=
  [(.i 1, .strV "N"), (.i 2, dmsTriple 10 30 0),
   (.i 3, .strV "E"), (.i 4, dmsTriple 20 0 0),
   (.i 5, .intV 0), (.i 6, .tup [.intV 100, .intV 1])]

/-- A fully populated structured EXIF dictionary carrying `c4GpsIfd` under
the GPSInfo tag. -/
def c4ExifDict : ExifDict := [(.i 34853, .dictV c4GpsIfd)]

/-- A piexif GPS IFD with altitude 100 and `GPSAltitudeRef = 1` (below sea
level). -/
def c4PiexifIfd : List (Int × PyVal) :=
  [(1, .bytesV [78]), (2, dmsTriple 10 30 0),
   (3, .bytesV [69]), (4, dmsTriple 20 0 0),
   (5, .intV 1), (6, .tup [.intV 100, .intV 1])]

/-- A GPS IFD whose latitude component is 1000 degrees — syntactically
valid EXIF rationals far outside the geographic range. -/
def c5Ifd : List (Int × PyVal) :=
  [(1, .bytesV [78]), (2, dmsTriple 1000 0 0),
   (3, .bytesV [69]), (4, dmsTriple 0 0 0)]

/-- A concrete piexif collaborator parsing blob `[2]` to `c5Ifd`. -/
def c5Lib : PiexifLib := ⟨fun bs => if bs = [2] then some c5Ifd else none⟩

/-- The claim C7 example placemark: lat 12.3, lon 45.6, alt 7.8. -/
def c7Pm : Placemark := ⟨"p.jpg", 12.3, 45.6, some 7.8, "p.jpg"⟩

/-- A recognized image file with no GPS data. -/
def noGpsEntry : FileEntry := ⟨"a.jpg", "/pics/a.jpg", "a.jpg", .ok none⟩

/-- A recognized image file with a GPS coordinate. -/
def gpsEntry : FileEntry :=
  ⟨"g.jpg", "/pics/g.jpg", "g.jpg", .ok (some (10.5, 20, none))⟩

/-- A recognized image file whose processing raised an exception that
reached `main`'s per-file handler. -/
def excEntry : FileEntry := ⟨"bad.jpg", "/pics/bad.jpg", "bad.jpg", .exc "boom"⟩

/-- A file with an unrecognized extension. -/
def txtEntry : FileEntry := ⟨"notes.txt", "/pics/notes.txt", "notes.txt", .ok none⟩

/-- A corrupt image: `Image.open` raises inside `get_exif_any`. -/
def corruptFm : FileModel := ⟨"corrupt.jpg", none, none⟩

/-- The scan entry for the corrupt image, processed through the actual
resolver pipeline (whose internal exception handling swallows the
error). -/
def corruptEntry : FileEntry :=
  ⟨"corrupt.jpg", "/pics/corrupt.jpg", "corrupt.jpg",
   fileOutcomeOf envBoth demoLib corruptFm⟩

/-!  Theorems.  -/

theorem pyCharReplace_append (p : Char) (r : List Char) (xs ys : List Char) :
    pyCharReplace p r (xs ++ ys) = pyCharReplace p r xs ++ pyCharReplace p r ys := by
  induction xs with
  | nil => rfl
  | cons c cs ih => simp [pyCharReplace, ih]

theorem escRun_append (xs ys : List Char) :
    escRun (xs ++ ys) = escRun xs ++ escRun ys := by
  simp [escRun, pyCharReplace_append]

theorem escRun_single (c : Char) : escRun [c] = escChar c := by
  by_cases h1 : c = '&'
  · subst h1; rfl
  · by_cases h2 : c = '<'
    · subst h2; rfl
    · by_cases h3 : c = '>'
      · subst h3; rfl
      · by_cases h4 : c = '"'
        · subst h4; rfl
        · by_cases h5 : c = '\''
          · subst h5; rfl
          · simp [escRun, pyCharReplace, escChar, h1, h2, h3, h4, h5]

theorem escRun_eq_join (l : List Char) : escRun l = (l.map escChar).flatten := by
  induction l with
  | nil => rfl
  | cons c cs ih =>
    have h : c :: cs = [c] ++ cs := rfl
    rw [h, escRun_append, escRun_single, ih]
    simp

/-- C6: `xml_escape` escapes every one of the five special characters to
its entity and leaves every other character unchanged — one independent
escape per character of the input, so the ampersands introduced by the
other entities are never escaped again (the `&` pass runs first), and no
special character of the original string survives unescaped. -/
theorem c6_xml_escape :
    (∀ s : String, xml_escape s = String.mk ((s.toList.map escChar).flatten)) ∧
    xml_escape "a&b<c>d\"e'f" = "a&amp;b&lt;c&gt;d&quot;e&apos;f" := by
  constructor
  · intro s
    rw [xml_escape, escRun_eq_join]
  · rfl



/-- Evaluation of `rational_to_float` on an integer pair: divide unless the
denominator is zero, else fall back to the numerator. -/
theorem rational_to_float_pair (n d : Int) :
    rational_to_float (.tup [.intV n, .intV d]) =
      some (if d = 0 then (n : ℚ) else (n : ℚ) / (d : ℚ)) := by
  by_cases hd : d = 0
  · subst hd
    simp [rational_to_float, pyTruthy, pyFloat]
  · have hq : (d : ℚ) ≠ 0 := by exact_mod_cast hd
    simp [rational_to_float, pyTruthy, pyFloat, hd, hq]

/-- Evaluation of `dms_to_deg` on a 3-tuple whose components all
convert. -/
theorem dms_to_deg_eval (a b c : PyVal) (ref : Option PyVal) (d m s : ℚ)
    (ha : rational_to_float a = some d) (hb : rational_to_float b = some m)
    (hc : rational_to_float c = some s) :
    dms_to_deg (some (.tup [a, b, c])) ref =
      some (if refNegates ref then -(d + m / 60 + s / 3600)
            else d + m / 60 + s / 3600) := by
  have h0 : pyIndex (.tup [a, b, c]) 0 = some a := rfl
  have h1 : pyIndex (.tup [a, b, c]) 1 = some b := rfl
  have h2 : pyIndex (.tup [a, b, c]) 2 = some c := rfl
  simp only [dms_to_deg, pyTruthy, pyLen, h0, h1, h2, ha, hb, hc]
  rfl

/-- C3: `rational_to_float` divides a pair with nonzero denominator,
returns the numerator as a float for a zero denominator (so `(0,0)` is
deterministically `0.0`), passes plain numbers through `float`, and yields
absent for non-numeric or wrong-shaped input; it is total, so it never
raises past its boundary. -/
theorem c3_rational_to_float :
    (∀ n d : Int, rational_to_float (.tup [.intV n, .intV d]) =
      some (if d = 0 then (n : ℚ) else (n : ℚ) / (d : ℚ))) ∧
    (∀ n d : Int, rational_to_float (.ratObj n d) =
      some (if d = 0 then (n : ℚ) else (n : ℚ) / (d : ℚ))) ∧
    rational_to_float (.tup [.intV 0, .intV 0]) = some 0 ∧
    (∀ n : Int, rational_to_float (.intV n) = some (n : ℚ)) ∧
    (∀ q : ℚ, rational_to_float (.floatV q) = some q) ∧
    (∀ s : String, rational_to_float (.strV s) = pyFloatParse s) ∧
    rational_to_float (.strV "3.5") = some (3.5 : ℚ) ∧
    rational_to_float (.bytesV [50]) = some 2 ∧
    rational_to_float (.strV "abc") = none ∧
    rational_to_float (.bytesV [50, 200]) = none ∧
    (∀ xs : List PyVal, xs.length ≠ 2 → rational_to_float (.tup xs) = none) := by
  refine ⟨rational_to_float_pair, ?_,
    by rw [rational_to_float_pair 0 0]; norm_num,
    fun n => rfl, fun q => rfl, fun s => rfl, ?_, ?_, rfl, rfl, ?_⟩
  · intro n d
    by_cases hd : d = 0 <;> simp [rational_to_float, hd]
  · rw [show (3.5 : ℚ) = mkRat 35 10 from by norm_num [Rat.mkRat_eq_div]]
    decide
  · rw [show (2 : ℚ) = mkRat 2 1 from by norm_num [Rat.mkRat_eq_div]]
    decide
  · intro xs hx
    match xs, hx with
    | [], _ => rfl
    | [a], _ => rfl
    | [a, b], hx => exact absurd rfl hx
    | a :: b :: c :: t, _ => rfl

/-- Witness for C3 at concrete inputs: a true division, a zero-denominator
fallback, and a wrong-arity tuple. -/
theorem c3_witness :
    rational_to_float (.tup [.intV 3, .intV 2]) = some (3 / 2 : ℚ) ∧
    rational_to_float (.tup [.intV 7, .intV 0]) = some 7 ∧
    rational_to_float (.tup [.intV 1, .intV 2, .intV 3]) = none := by
  refine ⟨?_, ?_,
    c3_rational_to_float.2.2.2.2.2.2.2.2.2.2 [.intV 1, .intV 2, .intV 3]
      (by decide)⟩
  · rw [c3_rational_to_float.1 3 2]; norm_num
  · rw [c3_rational_to_float.1 7 0]; norm_num

/-- C1: `dms_to_deg` yields absent for empty or wrong-length input and for
any unconvertible component; otherwise it computes
`degrees + minutes/60 + seconds/3600`, negated exactly when the reference
is the string `"S"` or `"W"` (absent or any other reference value does not
negate); the spec's example triple gives 10.5 with `"N"` and -10.5 with
`"S"`.  Total, hence never raises. -/
theorem c1_dms_to_deg :
    (∀ (xs : List PyVal) (ref : Option PyVal), xs.length ≠ 3 →
      dms_to_deg (some (.tup xs)) ref = none) ∧
    (∀ ref : Option PyVal, dms_to_deg none ref = none) ∧
    (∀ (a b c : PyVal) (ref : Option PyVal),
      rational_to_float a = none ∨ rational_to_float b = none ∨
        rational_to_float c = none →
      dms_to_deg (some (.tup [a, b, c])) ref = none) ∧
    (∀ (a b c : PyVal) (ref : Option PyVal) (d m s : ℚ),
      rational_to_float a = some d → rational_to_float b = some m →
      rational_to_float c = some s →
      dms_to_deg (some (.tup [a, b, c])) ref =
        some (if refNegates ref then -(d + m / 60 + s / 3600)
              else d + m / 60 + s / 3600)) ∧
    (∀ ref : Option PyVal,
      refNegates ref = true ↔ ref = some (.strV "S") ∨ ref = some (.strV "W")) ∧
    dms_to_deg (some dmsEx) (some (.strV "N")) = some 10.5 ∧
    dms_to_deg (some dmsEx) (some (.strV "S")) = some (-10.5) := by
  have hd10 : rational_to_float (.tup [.intV 10, .intV 1]) = some 10 := by
    rw [rational_to_float_pair]; norm_num
  have hd30 : rational_to_float (.tup [.intV 30, .intV 1]) = some 30 := by
    rw [rational_to_float_pair]; norm_num
  have hd0 : rational_to_float (.tup [.intV 0, .intV 1]) = some 0 := by
    rw [rational_to_float_pair]; norm_num
  have eEx : dmsEx = PyVal.tup [.tup [.intV 10, .intV 1], .tup [.intV 30, .intV 1],
      .tup [.intV 0, .intV 1]] := rfl
  refine ⟨?_, fun ref => rfl, ?_, dms_to_deg_eval, ?_,
    by rw [eEx, dms_to_deg_eval _ _ _ _ 10 30 0 hd10 hd30 hd0]
       simp [refNegates]; norm_num,
    by rw [eEx, dms_to_deg_eval _ _ _ _ 10 30 0 hd10 hd30 hd0]
       simp [refNegates]; norm_num⟩
  · intro xs ref hx
    match xs, hx with
    | [], _ => rfl
    | [a], _ => rfl
    | [a, b], _ => rfl
    | [a, b, c], hx => exact absurd rfl hx
    | a :: b :: c :: e :: t, _ =>
      simp [dms_to_deg, pyTruthy, pyLen]
  · intro a b c ref h
    have h0 : pyIndex (.tup [a, b, c]) 0 = some a := rfl
    have h1 : pyIndex (.tup [a, b, c]) 1 = some b := rfl
    have h2 : pyIndex (.tup [a, b, c]) 2 = some c := rfl
    simp only [dms_to_deg, pyTruthy, pyLen, h0, h1, h2]
    rcases h with h | h | h <;> rw [h] <;>
      cases rational_to_float a <;> cases rational_to_float b <;>
      cases rational_to_float c <;> rfl
  · intro ref
    match ref with
    | none => simp [refNegates]
    | some (.intV n) => simp [refNegates]
    | some (.floatV q) => simp [refNegates]
    | some (.bytesV bs) => simp [refNegates]
    | some (.tup xs) => simp [refNegates]
    | some (.ratObj n d) => simp [refNegates]
    | some (.strV s) => simp [refNegates]

/-- Witness for C1 at concrete inputs: a 2-element triple, an unconvertible
component, and the negated spec example. -/
theorem c1_witness :
    dms_to_deg (some (.tup [.intV 1, .intV 2])) none = none ∧
    dms_to_deg (some (.tup [.strV "x", .intV 1, .intV 1])) none = none ∧
    dms_to_deg (some dmsEx) (some (.strV "W")) = some (-10.5) := by
  have hd10 : rational_to_float (.tup [.intV 10, .intV 1]) = some 10 := by
    rw [rational_to_float_pair]; norm_num
  have hd30 : rational_to_float (.tup [.intV 30, .intV 1]) = some 30 := by
    rw [rational_to_float_pair]; norm_num
  have hd0 : rational_to_float (.tup [.intV 0, .intV 1]) = some 0 := by
    rw [rational_to_float_pair]; norm_num
  have e : dmsEx = PyVal.tup [.tup [.intV 10, .intV 1], .tup [.intV 30, .intV 1],
      .tup [.intV 0, .intV 1]] := rfl
  refine ⟨c1_dms_to_deg.1 [.intV 1, .intV 2] none (by decide),
    c1_dms_to_deg.2.2.1 (.strV "x") (.intV 1) (.intV 1) none (Or.inl rfl), ?_⟩
  rw [e, c1_dms_to_deg.2.2.2.1 _ _ _ (some (.strV "W")) 10 30 0 hd10 hd30 hd0]
  simp [refNegates]; norm_num

/-- Remapping the GPS IFD keys through the inverted `GPSTAGS` table never
produces a string key that is itself a standard GPS tag name: integer keys
stay integers, and a string key equal to a standard name is replaced by its
integer id.  Hence the string lookups that follow the remap always miss. -/
theorem remap_lookup_none (d : List (PyKey × PyVal)) (nm : String)
    (h : (dLookup nm GPSTAGS).isSome) :
    dLookup (PyKey.s nm) (gpstagsRemap d) = none := by
  induction d with
  | nil => rfl
  | cons kv rest ih =>
    obtain ⟨k, v⟩ := kv
    have hk : gpstagsRemapKey k ≠ PyKey.s nm := by
      match k with
      | .i n => simp [gpstagsRemapKey]
      | .s nm2 =>
        simp only [gpstagsRemapKey]
        match h2 : dLookup nm2 GPSTAGS with
        | some id => simp
        | none =>
          intro hc
          injection hc with hnm
          rw [hnm] at h2
          rw [h2] at h
          simp at h
    show dLookup (PyKey.s nm) ((gpstagsRemapKey k, v) :: gpstagsRemap rest) = none
    simp only [dLookup]
    rw [if_neg hk]
    exact ih

/-- The structured (tag-dictionary) extractor never yields a coordinate:
the `GPSTAGS` table of photo_mapper.py line 35 maps name → id, so the
remap of line 74 leaves the IFD's integer keys unchanged and the string
lookups `gps.get("GPSLatitude")` etc. always return `None`. -/
theorem extract_gps_from_pil_exif_eq_none (exif : ExifDict) :
    extract_gps_from_pil_exif exif = none := by
  cases exif with
  | nil => rfl
  | cons kv rest =>
    simp only [extract_gps_from_pil_exif]
    split
    · rfl
    · rfl
    · rename_i gps_ifd heq
      have hlat : dLookup (PyKey.s "GPSLatitude") (gpstagsRemap gps_ifd) = none :=
        remap_lookup_none gps_ifd "GPSLatitude" (by decide)
      simp only [hlat, dms_to_deg]

/-- Evaluation of `dms_to_deg` on a whole-number DMS triple. -/
theorem dms_to_deg_triple (d m s : Int) (ref : Option PyVal) :
    dms_to_deg (some (dmsTriple d m s)) ref =
      some (if refNegates ref then -((d : ℚ) + (m : ℚ) / 60 + (s : ℚ) / 3600)
            else (d : ℚ) + (m : ℚ) / 60 + (s : ℚ) / 3600) := by
  have hd : rational_to_float (.tup [.intV d, .intV 1]) = some (d : ℚ) := by
    rw [rational_to_float_pair]; norm_num
  have hm : rational_to_float (.tup [.intV m, .intV 1]) = some (m : ℚ) := by
    rw [rational_to_float_pair]; norm_num
  have hs : rational_to_float (.tup [.intV s, .intV 1]) = some (s : ℚ) := by
    rw [rational_to_float_pair]; norm_num
  exact dms_to_deg_eval _ _ _ ref _ _ _ hd hm hs

/-- Evaluation of the raw-bytes GPS extraction once both reference decodes
and both `dms_to_deg` conversions are known. -/
theorem piexif_ifd_extract_eval (gps_ifd : List (Int × PyVal)) (hne : gps_ifd ≠ [])
    (latRef lonRef : Option String)
    (h1 : piexifRefDecode gps_ifd piexifLatRef = some latRef)
    (h3 : piexifRefDecode gps_ifd piexifLonRef = some lonRef)
    (la lo : ℚ)
    (hla : dms_to_deg (dLookup piexifLat gps_ifd) (latRef.map PyVal.strV) = some la)
    (hlo : dms_to_deg (dLookup piexifLon gps_ifd) (lonRef.map PyVal.strV) = some lo) :
    extract_gps_from_piexif_gps_ifd gps_ifd =
      some (la, lo,
        match dLookup piexifAlt gps_ifd with
        | none => none
        | some av =>
          match rational_to_float av with
          | none => none
          | some a =>
            some (if pyEqOne ((dLookup piexifAltRef gps_ifd).getD (.intV 0))
                  then -a else a)) := by
  match gps_ifd, hne with
  | kv :: rest, _ =>
    simp only [extract_gps_from_piexif_gps_ifd, h1, h3, hla, hlo]

/-- The demo GPS IFD extracts to latitude 10.5, longitude 20, no
altitude. -/
theorem demoIfd_eval :
    extract_gps_from_piexif_gps_ifd demoIfd = some (10.5, 20, none) := by
  have hla : dms_to_deg (dLookup piexifLat demoIfd) ((some "N").map PyVal.strV) =
      some 10.5 := by
    have hlk : dLookup piexifLat demoIfd = some (dmsTriple 10 30 0) := rfl
    rw [hlk]
    show dms_to_deg (some (dmsTriple 10 30 0)) (some (.strV "N")) = some 10.5
    rw [dms_to_deg_triple]
    norm_num [refNegates]
    decide
  have hlo : dms_to_deg (dLookup piexifLon demoIfd) ((some "E").map PyVal.strV) =
      some 20 := by
    have hlk : dLookup piexifLon demoIfd = some (dmsTriple 20 0 0) := rfl
    rw [hlk]
    show dms_to_deg (some (dmsTriple 20 0 0)) (some (.strV "E")) = some 20
    rw [dms_to_deg_triple]
    norm_num [refNegates]
    decide
  rw [piexif_ifd_extract_eval demoIfd (by simp [demoIfd]) (some "N") (some "E")
    (by decide) (by decide) 10.5 20 hla hlo]
  have halt : dLookup piexifAlt demoIfd = none := rfl
  rw [halt]

/-- C4 (code-bug evidence): the altitude rule holds on the raw-bytes path
(`GPSAltitudeRef == 1` negates; `0` or absent does not; latitude/longitude
still succeed), but the tag-dictionary path — contrary to the claim —
extracts nothing at all, for any input: the inverted `GPSTAGS` table makes
every string lookup after the remap miss, so even the fully populated
dictionary `c4ExifDict` (lat 10°30'N, lon 20°E, altitude 100) yields no
coordinate and no altitude. -/
theorem c4_altitude_sign :
    (∀ exif : ExifDict, extract_gps_from_pil_exif exif = none) ∧
    extract_gps_from_pil_exif c4ExifDict = none ∧
    extract_gps_from_piexif_gps_ifd c4PiexifIfd = some (10.5, 20, some (-100)) ∧
    extract_gps_from_piexif_gps_ifd
      [(1, .bytesV [78]), (2, dmsTriple 10 30 0), (3, .bytesV [69]),
       (4, dmsTriple 20 0 0), (6, .tup [.intV 100, .intV 1])] =
      some (10.5, 20, some 100) := by
  refine ⟨extract_gps_from_pil_exif_eq_none,
    extract_gps_from_pil_exif_eq_none c4ExifDict, ?_, ?_⟩
  · have hla : dms_to_deg (dLookup piexifLat c4PiexifIfd)
        ((some "N").map PyVal.strV) = some 10.5 := by
      have hlk : dLookup piexifLat c4PiexifIfd = some (dmsTriple 10 30 0) := rfl
      rw [hlk]
      show dms_to_deg (some (dmsTriple 10 30 0)) (some (.strV "N")) = some 10.5
      rw [dms_to_deg_triple]
      norm_num [refNegates]
      decide
    have hlo : dms_to_deg (dLookup piexifLon c4PiexifIfd)
        ((some "E").map PyVal.strV) = some 20 := by
      have hlk : dLookup piexifLon c4PiexifIfd = some (dmsTriple 20 0 0) := rfl
      rw [hlk]
      show dms_to_deg (some (dmsTriple 20 0 0)) (some (.strV "E")) = some 20
      rw [dms_to_deg_triple]
      norm_num [refNegates]
      decide
    rw [piexif_ifd_extract_eval c4PiexifIfd (by simp [c4PiexifIfd]) (some "N")
      (some "E") (by decide) (by decide) 10.5 20 hla hlo]
    have h6 : dLookup piexifAlt c4PiexifIfd = some (.tup [.intV 100, .intV 1]) := rfl
    have h5 : dLookup piexifAltRef c4PiexifIfd = some (.intV 1) := rfl
    norm_num [h6, h5, rational_to_float_pair, pyEqOne]
  · set ifd0 : List (Int × PyVal) :=
      [(1, .bytesV [78]), (2, dmsTriple 10 30 0), (3, .bytesV [69]),
       (4, dmsTriple 20 0 0), (6, .tup [.intV 100, .intV 1])] with hifd
    have hla : dms_to_deg (dLookup piexifLat ifd0)
        ((some "N").map PyVal.strV) = some 10.5 := by
      have hlk : dLookup piexifLat ifd0 = some (dmsTriple 10 30 0) := rfl
      rw [hlk]
      show dms_to_deg (some (dmsTriple 10 30 0)) (some (.strV "N")) = some 10.5
      rw [dms_to_deg_triple]
      norm_num [refNegates]
      decide
    have hlo : dms_to_deg (dLookup piexifLon ifd0)
        ((some "E").map PyVal.strV) = some 20 := by
      have hlk : dLookup piexifLon ifd0 = some (dmsTriple 20 0 0) := rfl
      rw [hlk]
      show dms_to_deg (some (dmsTriple 20 0 0)) (some (.strV "E")) = some 20
      rw [dms_to_deg_triple]
      norm_num [refNegates]
      decide
    rw [piexif_ifd_extract_eval ifd0 (by simp [hifd]) (some "N")
      (some "E") (by decide) (by decide) 10.5 20 hla hlo]
    have h6 : dLookup piexifAlt ifd0 = some (.tup [.intV 100, .intV 1]) := rfl
    have h5 : dLookup piexifAltRef ifd0 = none := rfl
    norm_num [h6, h5, rational_to_float_pair, pyEqOne]

/-- C5 counterexample: the raw-bytes extraction path happily produces the
coordinate (1000, 0) from syntactically valid EXIF rationals — a latitude
far outside [-90, 90], refuting the claimed range invariant. -/
theorem c5_range_counterexample :
    extract_gps_from_piexif_bytes envBoth c5Lib [2] = some (1000, 0, none) ∧
    ¬ (-90 ≤ (1000 : ℚ) ∧ (1000 : ℚ) ≤ 90) := by
  constructor
  · have hb : extract_gps_from_piexif_bytes envBoth c5Lib [2] =
        extract_gps_from_piexif_gps_ifd c5Ifd := rfl
    rw [hb]
    have hla : dms_to_deg (dLookup piexifLat c5Ifd)
        ((some "N").map PyVal.strV) = some 1000 := by
      have hlk : dLookup piexifLat c5Ifd = some (dmsTriple 1000 0 0) := rfl
      rw [hlk]
      show dms_to_deg (some (dmsTriple 1000 0 0)) (some (.strV "N")) = some 1000
      rw [dms_to_deg_triple]
      norm_num [refNegates]
      decide
    have hlo : dms_to_deg (dLookup piexifLon c5Ifd)
        ((some "E").map PyVal.strV) = some 0 := by
      have hlk : dLookup piexifLon c5Ifd = some (dmsTriple 0 0 0) := rfl
      rw [hlk]
      show dms_to_deg (some (dmsTriple 0 0 0)) (some (.strV "E")) = some 0
      rw [dms_to_deg_triple]
      norm_num [refNegates]
    rw [piexif_ifd_extract_eval c5Ifd (by simp [c5Ifd]) (some "N") (some "E")
      (by decide) (by decide) 1000 0 hla hlo]
    have h6 : dLookup piexifAlt c5Ifd = none := rfl
    rw [h6]
  · norm_num

/-- C5 amended: the extractors validate no ranges.  The tag-dictionary path
produces no coordinate at all, and every coordinate produced by the
raw-bytes path carries exactly the unvalidated `dms_to_deg` conversions of
the `GPSLatitude`/`GPSLongitude` tags, so latitude and longitude lie inside
[-90, 90] × [-180, 180] only when those converted values happen to. -/
theorem c5_no_range_validation :
    (∀ exif : ExifDict, extract_gps_from_pil_exif exif = none) ∧
    (∀ (gps_ifd : List (Int × PyVal)) (la lo : ℚ) (al : Option ℚ),
      extract_gps_from_piexif_gps_ifd gps_ifd = some (la, lo, al) →
      dms_to_deg (dLookup piexifLat gps_ifd) (piexifRefArg gps_ifd piexifLatRef) =
        some la ∧
      dms_to_deg (dLookup piexifLon gps_ifd) (piexifRefArg gps_ifd piexifLonRef) =
        some lo) := by
  refine ⟨extract_gps_from_pil_exif_eq_none, ?_⟩
  intro gps_ifd la lo al h
  match gps_ifd, h with
  | [], h => exact Option.noConfusion h
  | kv :: rest, h =>
    simp only [extract_gps_from_piexif_gps_ifd] at h
    cases hR1 : piexifRefDecode (kv :: rest) piexifLatRef with
    | none => rw [hR1] at h; simp at h
    | some latRef =>
      cases hR3 : piexifRefDecode (kv :: rest) piexifLonRef with
      | none => rw [hR1, hR3] at h; simp at h
      | some lonRef =>
        rw [hR1, hR3] at h
        dsimp only at h
        cases hla : dms_to_deg (dLookup piexifLat (kv :: rest))
            (latRef.map PyVal.strV) with
        | none =>
          rw [hla] at h
          simp at h
        | some qla =>
          cases hlo : dms_to_deg (dLookup piexifLon (kv :: rest))
              (lonRef.map PyVal.strV) with
          | none => rw [hla, hlo] at h; simp at h
          | some qlo =>
            rw [hla, hlo] at h
            dsimp only at h
            simp only [Option.some.injEq, Prod.mk.injEq] at h
            obtain ⟨h1, h2, h3⟩ := h
            constructor
            · simp only [piexifRefArg, hR1, Option.getD_some]
              rw [hla, h1]
            · simp only [piexifRefArg, hR3, Option.getD_some]
              rw [hlo, h2]

/-- Witness for C5's amended theorem at the demo IFD, whose extraction
succeeds with latitude 10.5 and longitude 20. -/
theorem c5_witness :
    dms_to_deg (dLookup piexifLat demoIfd) (piexifRefArg demoIfd piexifLatRef) =
      some 10.5 ∧
    dms_to_deg (dLookup piexifLon demoIfd) (piexifRefArg demoIfd piexifLonRef) =
      some 20 :=
  c5_no_range_validation.2 demoIfd 10.5 20 none demoIfd_eval

/-- The sentinel string key never occurs in a PIL tag dictionary: all its
keys are integer tag ids. -/
theorem pil_dict_no_sentinel (l : List (Int × ExifVal)) :
    dLookup (PyKey.s "__RAW_EXIF_BYTES__") (pilToExifDict l) = none := by
  induction l with
  | nil => rfl
  | cons kv rest ih =>
    show dLookup _ ((PyKey.i kv.1, kv.2) :: pilToExifDict rest) = none
    simp only [dLookup]
    rw [if_neg (by intro hc; exact PyKey.noConfusion hc)]
    exact ih

/-- A blob found by the HEIF metadata scan is nonempty (the scan requires
truthy `"data"`). -/
theorem heifFind_not_isEmpty (mds : List HeifMd) (d : Bytes)
    (h : heifFind mds = some d) : d.isEmpty = false := by
  unfold heifFind at h
  rw [Option.map_eq_some'] at h
  obtain ⟨md, hfind, hmd⟩ := h
  have hp := List.find?_some hfind
  rw [Bool.and_eq_true] at hp
  rw [← hmd]
  simpa using hp.2

/-- The blob the code stashes (the final `if exif_bytes:` of
`get_exif_any`) is exactly the spec's "obtained blob". -/
theorem truthyBlob_codeExifBytes (env : Env) (fm : FileModel) (im : PILImage) :
    truthyBlob (codeExifBytes env fm im) = obtainBlob env fm im := by
  cases hie : im.infoExif with
  | none =>
    by_cases hcond : (env.have_pillow_heif && isHeifSuffix fm.fname) = true
    · cases hhf : fm.heif with
      | none =>
        simp [codeExifBytes, obtainBlob, heifBlob, obTruthy, truthyBlob, hie,
          hcond, hhf]
      | some mds =>
        cases hfind : heifFind mds with
        | none =>
          simp [codeExifBytes, obtainBlob, heifBlob, obTruthy, truthyBlob, hie,
            hcond, hhf, hfind]
        | some d =>
          have hne := heifFind_not_isEmpty mds d hfind
          simp [codeExifBytes, obtainBlob, heifBlob, obTruthy, truthyBlob, hie,
            hcond, hhf, hfind, hne]
    · rw [Bool.not_eq_true] at hcond
      simp [codeExifBytes, obtainBlob, heifBlob, obTruthy, truthyBlob, hie, hcond]
  | some b =>
    by_cases hb : b.isEmpty
    · by_cases hcond : (env.have_pillow_heif && isHeifSuffix fm.fname) = true
      · cases hhf : fm.heif with
        | none =>
          simp [codeExifBytes, obtainBlob, heifBlob, obTruthy, truthyBlob, hie,
            hcond, hhf, hb]
        | some mds =>
          cases hfind : heifFind mds with
          | none =>
            simp [codeExifBytes, obtainBlob, heifBlob, obTruthy, truthyBlob, hie,
              hcond, hhf, hfind, hb]
          | some d =>
            have hne := heifFind_not_isEmpty mds d hfind
            simp [codeExifBytes, obtainBlob, heifBlob, obTruthy, truthyBlob, hie,
              hcond, hhf, hfind, hb, hne]
      · rw [Bool.not_eq_true] at hcond
        simp [codeExifBytes, obtainBlob, heifBlob, obTruthy, truthyBlob, hie,
          hcond, hb]
    · have hb2 : b.isEmpty = false := by simpa using hb
      simp [codeExifBytes, obtainBlob, heifBlob, obTruthy, truthyBlob, hie, hb2]

/-- C2: the per-file result of `main`'s dispatch equals the spec's
Metadata Resolver decision procedure for every collaborator behaviour, and
the raw-bytes extractor is invoked exactly when the structured extraction
yielded nothing and a truthy blob was obtained (in particular, never when
the structured path yields a coordinate).  Concretely: a file whose
structured dictionary has no GPS entry but whose raw EXIF bytes contain
GPS still produces a coordinate — the placemark case — and a file with no
blob at all produces absent without invoking the raw path. -/
theorem c2_metadata_resolver :
    (∀ (env : Env) (lib : PiexifLib) (fm : FileModel),
      (resolveFileT env lib fm).1 = resolverSpec env lib fm ∧
      (resolveFileT env lib fm).2 = rawInvoked env fm) ∧
    resolveFileT envBoth demoLib demoFallbackFile = (some (10.5, 20, none), true) ∧
    resolveFileT envBoth demoLib demoEmptyFile = (none, false) := by
  refine ⟨?_, ?_, rfl⟩
  · intro env lib fm
    cases him : fm.img with
    | none =>
      constructor <;>
        simp [resolveFileT, get_exif_any, resolverSpec, rawInvoked, him, dLookup,
          extract_gps_from_pil_exif]
    | some im =>
      have hpil : extract_gps_from_pil_exif (pilToExifDict im.getexif) = none :=
        extract_gps_from_pil_exif_eq_none _
      have hblob := truthyBlob_codeExifBytes env fm im
      cases hob : obtainBlob env fm im with
      | some b =>
        rw [hob] at hblob
        cases hce : codeExifBytes env fm im with
        | none =>
          rw [hce] at hblob
          exact absurd hblob (by simp [truthyBlob])
        | some b0 =>
          rw [hce] at hblob
          have hsplit : b0.isEmpty = false ∧ b0 = b := by
            by_cases hb0 : b0.isEmpty
            · simp [truthyBlob, hb0] at hblob
            · have hb0f : b0.isEmpty = false := by simpa using hb0
              simp [truthyBlob, hb0f] at hblob
              exact ⟨hb0f, hblob⟩
          have hbe : b.isEmpty = false := hsplit.2 ▸ hsplit.1
          have hgea : get_exif_any env fm =
              [(PyKey.s "__RAW_EXIF_BYTES__", ExifVal.plain (.bytesV b))] := by
            simp [get_exif_any, him, hpil, hce, hsplit.2, hbe]
          constructor
          · simp [resolveFileT, hgea, dLookup, resolverSpec, him, hpil, hob]
          · simp [resolveFileT, hgea, dLookup, rawInvoked, him, hpil, hob]
      | none =>
        rw [hob] at hblob
        have hgea : get_exif_any env fm = pilToExifDict im.getexif := by
          cases hce : codeExifBytes env fm im with
          | none => simp [get_exif_any, him, hpil, hce]
          | some b0 =>
            rw [hce] at hblob
            have hb0 : b0.isEmpty = true := by
              by_cases hb : b0.isEmpty
              · exact hb
              · have hbf : b0.isEmpty = false := by simpa using hb
                simp [truthyBlob, hbf] at hblob
            simp [get_exif_any, him, hpil, hce, hb0]
        constructor
        · simp [resolveFileT, hgea, pil_dict_no_sentinel, resolverSpec, him,
            hpil, hob]
        · simp [resolveFileT, hgea, pil_dict_no_sentinel, rawInvoked, him,
            hpil, hob]
  · have h1 : resolveFileT envBoth demoLib demoFallbackFile =
        (extract_gps_from_piexif_gps_ifd demoIfd, true) := rfl
    rw [h1, demoIfd_eval]

/-- C7: `build_kml` emits the coordinates as longitude first, then
latitude — the reverse of the internal (lat, lon) order — appending the
altitude only when it is present; for lat 12.3, lon 45.6, alt 7.8 the
emitted string is exactly `45.6,12.3,7.8`, inside the placemark's
`<coordinates>` element. -/
theorem c7_kml_coordinates :
    (∀ pm : Placemark, pm.alt = none →
      coordsOf pm = fmtQ pm.lon ++ "," ++ fmtQ pm.lat) ∧
    (∀ (pm : Placemark) (a : ℚ), pm.alt = some a →
      coordsOf pm = fmtQ pm.lon ++ "," ++ fmtQ pm.lat ++ "," ++ fmtQ a) ∧
    coordsOf c7Pm = "45.6,12.3,7.8" ∧
    build_kml [c7Pm] "T" =
      kmlHeader "T" ++
        "    <Placemark>\n      <name>p.jpg</name>\n      <description>p.jpg</description>\n      <Point><coordinates>45.6,12.3,7.8</coordinates></Point>\n    </Placemark>\n" ++
        kmlFooter := by
  have h456 : (45.6 : ℚ) = mkRat 456 10 := by norm_num [Rat.mkRat_eq_div]
  have h123 : (12.3 : ℚ) = mkRat 123 10 := by norm_num [Rat.mkRat_eq_div]
  have h78 : (7.8 : ℚ) = mkRat 78 10 := by norm_num [Rat.mkRat_eq_div]
  have hcoords : coordsOf c7Pm = "45.6,12.3,7.8" := by
    show fmtQ (45.6 : ℚ) ++ "," ++ fmtQ (12.3 : ℚ) ++ "," ++ fmtQ (7.8 : ℚ) =
      "45.6,12.3,7.8"
    rw [h456, h123, h78]
    decide
  refine ⟨fun pm h => by simp only [coordsOf, h],
    fun pm a h => by simp only [coordsOf, h], hcoords, ?_⟩
  have hpm : placemarkXml c7Pm =
      "    <Placemark>\n      <name>p.jpg</name>\n      <description>p.jpg</description>\n      <Point><coordinates>45.6,12.3,7.8</coordinates></Point>\n    </Placemark>\n" := by
    show "    <Placemark>\n      <name>" ++ xml_escape "p.jpg" ++ "</name>\n      " ++
      (if xml_escape "p.jpg" ≠ "" then
         "<description>" ++ xml_escape "p.jpg" ++ "</description>"
       else "") ++
      "\n      <Point><coordinates>" ++ coordsOf c7Pm ++
      "</coordinates></Point>\n    </Placemark>\n" = _
    rw [hcoords]
    decide
  show kmlHeader "T" ++ String.join [placemarkXml c7Pm] ++ kmlFooter = _
  rw [hpm]
  rfl

/-- Witness for C7: the altitude-less and altitude-bearing cases at
concrete placemarks. -/
theorem c7_witness :
    coordsOf ⟨"x", 1, 2, none, ""⟩ = fmtQ 2 ++ "," ++ fmtQ 1 ∧
    coordsOf c7Pm = fmtQ (45.6 : ℚ) ++ "," ++ fmtQ (12.3 : ℚ) ++ "," ++
      fmtQ (7.8 : ℚ) :=
  ⟨c7_kml_coordinates.1 ⟨"x", 1, 2, none, ""⟩ rfl,
   c7_kml_coordinates.2.1 c7Pm 7.8 rfl⟩

theorem procFile_addState (a s : ScanState) (f : FileEntry) :
    procFile (addState a s) f = addState a (procFile s f) := by
  by_cases hr : recognizedExt f.fname = true
  · cases hres : f.res with
    | exc msg =>
      simp [procFile, addState, hr, hres, Nat.add_assoc, List.append_assoc]
    | ok g =>
      cases g with
      | none => simp [procFile, addState, hr, hres, Nat.add_assoc]
      | some c =>
        obtain ⟨la, lo, al⟩ := c
        simp [procFile, addState, hr, hres, Nat.add_assoc, List.append_assoc]
  · rw [Bool.not_eq_true] at hr
    simp [procFile, addState, hr]

theorem foldl_procFile_addState (fs : List FileEntry) (a s : ScanState) :
    fs.foldl procFile (addState a s) = addState a (fs.foldl procFile s) := by
  induction fs generalizing s with
  | nil => rfl
  | cons f rest ih =>
    simp only [List.foldl_cons, procFile_addState, ih]

theorem addState_initState (a : ScanState) : addState a initState = a := by
  cases a
  simp [addState, initState]

theorem scan_append (xs ys : List FileEntry) :
    scan (xs ++ ys) = addState (scan xs) (scan ys) := by
  show (xs ++ ys).foldl procFile initState = _
  rw [List.foldl_append]
  calc ys.foldl procFile (scan xs)
      = ys.foldl procFile (addState (scan xs) initState) := by
        rw [addState_initState]
    _ = addState (scan xs) (ys.foldl procFile initState) :=
        foldl_procFile_addState ys (scan xs) initState
    _ = addState (scan xs) (scan ys) := rfl

/-- C8: whenever the scan produced no placemarks, `main` writes nothing,
prints nothing to stdout, appends the no-geotag notice and the counter
summary to stderr, and exits with code 4 — for every file list, whatever
the write behaviour would have been. -/
theorem c8_empty_scan :
    ∀ (files : List FileEntry) (folderName outPath : String)
      (writeErr : Option String),
      (scan files).placemarks = [] →
      mainScanResult files folderName outPath writeErr =
        { exitCode := 4, written := none, stdout := [],
          stderr := (scan files).errlines ++
            ["No geotagged images found. No KML written.",
             summaryLine (scan files)] } := by
  intro files fn op we h
  simp [mainScanResult, h]

/-- Witness for C8: a folder with one recognized image file and no
geotagged image — total 1, no file written, exit 4, summary on stderr. -/
theorem c8_witness :
    (scan [noGpsEntry]).total = 1 ∧ (scan [noGpsEntry]).placemarks = [] ∧
    mainScanResult [noGpsEntry] "pics" "/pics/pics_images.kml" none =
      { exitCode := 4, written := none, stdout := [],
        stderr := ["No geotagged images found. No KML written.",
                   summaryLine (scan [noGpsEntry])] } := by
  refine ⟨rfl, rfl, ?_⟩
  rw [c8_empty_scan [noGpsEntry] "pics" "/pics/pics_images.kml" none rfl]
  rfl

/-- C9 counterexample: a corrupt image file — `Image.open` raises inside
`get_exif_any` — is processed through the actual resolver pipeline, which
swallows the exception: the scan counts it as skipped but emits NO warning
line, contradicting the claim that every file triggering an exception
during extraction produces exactly one stderr warning. -/
theorem c9_swallowed_exception_counterexample :
    fileOutcomeOf envBoth demoLib corruptFm = .ok none ∧
    scan [corruptEntry] =
      { placemarks := [], total := 1, with_gps := 0, skipped := 1,
        errlines := [] } := by
  constructor <;> rfl

/-- C9 amended: an exception raised inside the extraction pipeline is
caught there (the resolver never raises), so the file counts as skipped
with no warning and the scan continues; only an exception that reaches
`main`'s per-file handler produces exactly one `[WARN] path: msg` line and
a skip.  In both cases the rest of the scan — placemarks, counters,
warnings of the other files — is exactly what it would have been without
the bad file. -/
theorem c9_per_file_isolation :
    ∀ (env : Env) (lib : PiexifLib) (pre post : List FileEntry) (f : FileEntry),
      recognizedExt f.fname = true →
      (∀ fm : FileModel, fm.img = none → fileOutcomeOf env lib fm = .ok none) ∧
      (f.res = .ok none →
        (scan (pre ++ f :: post)).errlines = (scan (pre ++ post)).errlines ∧
        (scan (pre ++ f :: post)).skipped = (scan (pre ++ post)).skipped + 1 ∧
        (scan (pre ++ f :: post)).placemarks = (scan (pre ++ post)).placemarks ∧
        (scan (pre ++ f :: post)).with_gps = (scan (pre ++ post)).with_gps ∧
        (scan (pre ++ f :: post)).total = (scan (pre ++ post)).total + 1) ∧
      (∀ msg, f.res = .exc msg →
        (scan (pre ++ f :: post)).errlines =
          (scan pre).errlines ++ [warnLine f.path msg] ++ (scan post).errlines ∧
        (scan (pre ++ f :: post)).skipped = (scan (pre ++ post)).skipped + 1 ∧
        (scan (pre ++ f :: post)).placemarks = (scan (pre ++ post)).placemarks ∧
        (scan (pre ++ f :: post)).with_gps = (scan (pre ++ post)).with_gps ∧
        (scan (pre ++ f :: post)).total = (scan (pre ++ post)).total + 1) := by
  intro env lib pre post f hr
  have hsplit : scan (pre ++ f :: post) =
      addState (scan pre) (addState (scan [f]) (scan post)) := by
    have he : pre ++ f :: post = pre ++ ([f] ++ post) := by simp
    rw [he, scan_append, scan_append]
  have hrest : scan (pre ++ post) = addState (scan pre) (scan post) :=
    scan_append _ _
  refine ⟨?_, ?_, ?_⟩
  · intro fm him
    simp [fileOutcomeOf, resolveFileT, get_exif_any, him, dLookup,
      extract_gps_from_pil_exif]
  · intro hres
    have hd : scan [f] = ⟨[], 1, 0, 1, []⟩ := by
      show procFile initState f = _
      simp [procFile, hr, hres, initState]
    refine ⟨?_, ?_, ?_, ?_, ?_⟩ <;> simp [hsplit, hrest, hd, addState] <;> omega
  · intro msg hres
    have hd : scan [f] = ⟨[], 1, 0, 1, [warnLine f.path msg]⟩ := by
      show procFile initState f = _
      simp [procFile, hr, hres, initState]
    refine ⟨?_, ?_, ?_, ?_, ?_⟩ <;> simp [hsplit, hrest, hd, addState] <;> omega

/-- Witness for C9's amended theorem: the swallowed-exception case at the
corrupt file and the handler case at a file raising `"boom"` between two
good files. -/
theorem c9_witness :
    fileOutcomeOf envBoth demoLib corruptFm = .ok none ∧
    (scan ([gpsEntry] ++ excEntry :: [noGpsEntry])).errlines =
      (scan [gpsEntry]).errlines ++ [warnLine "/pics/bad.jpg" "boom"] ++
        (scan [noGpsEntry]).errlines ∧
    (scan ([gpsEntry] ++ excEntry :: [noGpsEntry])).skipped =
      (scan ([gpsEntry] ++ [noGpsEntry])).skipped + 1 ∧
    (scan ([gpsEntry] ++ excEntry :: [noGpsEntry])).with_gps =
      (scan ([gpsEntry] ++ [noGpsEntry])).with_gps := by
  have h := c9_per_file_isolation envBoth demoLib [gpsEntry] [noGpsEntry]
    excEntry (by decide)
  exact ⟨h.1 corruptFm rfl, (h.2.2 "boom" rfl).1, (h.2.2 "boom" rfl).2.1,
    (h.2.2 "boom" rfl).2.2.2.1⟩

/-- C10: at the end of a scan over any file list — hence also at every
prefix of the walk — the counters satisfy `total = with_gps + skipped` and
`with_gps` equals the number of accumulated placemarks; a file with an
unrecognized extension changes nothing at all, and a recognized file adds
one to `total` and one to exactly one of `with_gps` or `skipped`. -/
theorem c10_counters :
    (∀ files : List FileEntry,
      (scan files).total = (scan files).with_gps + (scan files).skipped ∧
      (scan files).with_gps = (scan files).placemarks.length) ∧
    (∀ (files : List FileEntry) (f : FileEntry), recognizedExt f.fname = false →
      scan (files ++ [f]) = scan files) ∧
    (∀ (files : List FileEntry) (f : FileEntry), recognizedExt f.fname = true →
      (scan (files ++ [f])).total = (scan files).total + 1 ∧
      (((scan (files ++ [f])).with_gps = (scan files).with_gps + 1 ∧
        (scan (files ++ [f])).skipped = (scan files).skipped) ∨
       ((scan (files ++ [f])).with_gps = (scan files).with_gps ∧
        (scan (files ++ [f])).skipped = (scan files).skipped + 1))) := by
  refine ⟨?_, ?_, ?_⟩
  · have key : ∀ (fs : List FileEntry) (s : ScanState),
        (s.total = s.with_gps + s.skipped ∧
          s.with_gps = s.placemarks.length) →
        ((fs.foldl procFile s).total =
          (fs.foldl procFile s).with_gps + (fs.foldl procFile s).skipped ∧
         (fs.foldl procFile s).with_gps =
          (fs.foldl procFile s).placemarks.length) := by
      intro fs
      induction fs with
      | nil => intro s h; exact h
      | cons f rest ih =>
        intro s h
        refine ih (procFile s f) ?_
        by_cases hr : recognizedExt f.fname = true
        · cases hres : f.res with
          | exc msg => simp [procFile, hr, hres]; omega
          | ok g =>
            cases g with
            | none => simp [procFile, hr, hres]; omega
            | some c =>
              obtain ⟨la, lo, al⟩ := c
              simp [procFile, hr, hres]
              omega
        · rw [Bool.not_eq_true] at hr
          simpa [procFile, hr] using h
    intro files
    exact key files initState ⟨rfl, rfl⟩
  · intro files f hr
    rw [scan_append]
    have hd : scan [f] = initState := by
      show procFile initState f = _
      simp [procFile, hr]
    rw [hd, addState_initState]
  · intro files f hr
    rw [scan_append]
    cases hres : f.res with
    | exc msg =>
      have hd : scan [f] = ⟨[], 1, 0, 1, [warnLine f.path msg]⟩ := by
        show procFile initState f = _
        simp [procFile, hr, hres, initState]
      rw [hd]
      exact ⟨rfl, Or.inr ⟨rfl, rfl⟩⟩
    | ok g =>
      cases g with
      | none =>
        have hd : scan [f] = ⟨[], 1, 0, 1, []⟩ := by
          show procFile initState f = _
          simp [procFile, hr, hres, initState]
        rw [hd]
        exact ⟨rfl, Or.inr ⟨rfl, rfl⟩⟩
      | some c =>
        obtain ⟨la, lo, al⟩ := c
        have hd : scan [f] = ⟨[⟨f.fname, la, lo, al, f.rel⟩], 1, 1, 0, []⟩ := by
          show procFile initState f = _
          simp [procFile, hr, hres, initState]
        rw [hd]
        exact ⟨rfl, Or.inl ⟨rfl, rfl⟩⟩

/-- Witness for C10: the invariant at a mixed concrete scan, the inertness
of an unrecognized extension, and the counting of a recognized file. -/
theorem c10_witness :
    (scan [gpsEntry, noGpsEntry, excEntry]).total =
      (scan [gpsEntry, noGpsEntry, excEntry]).with_gps +
        (scan [gpsEntry, noGpsEntry, excEntry]).skipped ∧
    scan ([gpsEntry] ++ [txtEntry]) = scan [gpsEntry] ∧
    (scan ([noGpsEntry] ++ [gpsEntry])).total = (scan [noGpsEntry]).total + 1 := by
  exact ⟨(c10_counters.1 [gpsEntry, noGpsEntry, excEntry]).1,
    c10_counters.2.1 [gpsEntry] txtEntry (by decide),
    (c10_counters.2.2 [noGpsEntry] gpsEntry (by decide)).1⟩
